import Mathlib

/-!
Verification of the player-session adapter in `python/player_proxy.py`
(OSD Lyrics player proxy). The Python source is shallowly embedded: pure
fragments become Lean functions, the registry and session lifecycle become an
explicit state machine, and backend calls are recorded in event lists so that
"issues exactly one backend call" is a statement about a list length.
-/

namespace PlayerProxy

/-- Capability flags, from `class CAPS` (lines 37-43 of the source). -/
def CAPS.NEXT : Nat := 1 <<< 0
def CAPS.PREV : Nat := 1 <<< 1
def CAPS.PAUSE : Nat := 1 <<< 2
def CAPS.PLAY : Nat := 1 <<< 3
def CAPS.SEEK : Nat := 1 <<< 4
def CAPS.PROVIDE_METADATA : Nat := 1 <<< 5

/-- Playback status codes, from `class STATUS` (lines 52-55). -/
def STATUS.PLAYING : Nat := 0
def STATUS.PAUSED : Nat := 1
def STATUS.STOPPED : Nat := 2

/-! ## Capability-change notification (`BasePlayer.caps_changed`, lines 737-753) -/

/-- A Python capability set (the result of `get_caps()`), as a list of flags. -/
abbrev CapSet := List Nat

/-- Python membership test `cap in caps` on a capability set. -/
def capMem (cap : Nat) (caps : CapSet) : Bool := caps.contains cap

/-- Python comparison `orig_caps != cap` between a set and an int: a Python
set never equals an int, so this comparison is always True (here: its
negation, `set == int`, is always false). -/
def setEqInt (_caps : CapSet) (_cap : Nat) : Bool := false

/-- The guard on line 752, `cap in orig_caps != cap in self._caps`.
In Python this is a CHAINED comparison and parses as
`(cap in orig_caps) and (orig_caps != cap) and (cap in self._caps)`;
since `orig_caps != cap` always holds (set vs. int), the guard is
equivalent to `cap in orig_caps and cap in self._caps`. -/
def capsCondition (cap : Nat) (orig_caps new_caps : CapSet) : Bool :=
  capMem cap orig_caps && !setEqInt orig_caps cap && capMem cap new_caps

/-- The `caps_map` dict of lines 744-750, in Python 3 insertion order. -/
def caps_map : List (Nat × String) :=
  [(CAPS.NEXT, "CanGoNext"),
   (CAPS.PREV, "CanGoPrevious"),
   (CAPS.PLAY, "CanPlay"),
   (CAPS.PAUSE, "CanPause"),
   (CAPS.SEEK, "CanSeek")]

/-- `BasePlayer.caps_changed` (lines 737-753): given the previous cached caps
(`orig_caps`, `none` when the cache was never populated) and the fresh caps
returned by `get_caps()`, the list of property assignments
`setattr(self, method, cap in self._caps)` it performs, in order. -/
def caps_changed (orig_caps : Option CapSet) (new_caps : CapSet) :
    List (String × Bool) :=
  match orig_caps with
  | none => []
  | some o =>
      (caps_map.filter (fun p => capsCondition p.1 o new_caps)).map
        (fun p => (p.2, capMem p.1 new_caps))

/-- Modelled from the spec (the behaviour `caps_changed` is documented to
have): emit a property change for exactly the capabilities whose membership
differs between the old and the new set. -/
def caps_changed_spec (orig_caps new_caps : CapSet) : List (String × Bool) :=
  (caps_map.filter (fun p => capMem p.1 orig_caps != capMem p.1 new_caps)).map
    (fun p => (p.2, capMem p.1 new_caps))

/-! ## Seek (`BasePlayer.Seek`, lines 515-520) -/

/-- `BasePlayer.Seek` (lines 515-520): from the cached (extrapolated) current
position in milliseconds and the signed offset in microseconds, the list of
`set_position` backend calls it performs. Python `//` is floor division,
embedded as `Int.fdiv`. -/
def Seek (cachedPos : Int) (offset : Int) : List Int :=
  let pos := cachedPos + Int.fdiv offset 1000
  let pos := if pos < 0 then 0 else pos
  [pos]

/-! ## SetPosition (`BasePlayer.SetPosition`, lines 525-528) -/

/-- `BasePlayer._get_current_trackid` (lines 461-462): `'/%s' % self._current_trackid`. -/
def get_current_trackid (tid : Nat) : String := "/" ++ toString tid

/-- `BasePlayer.SetPosition` (lines 525-528): given the session's current
trackid counter and the request's trackid and microsecond position, the list
of `set_position` backend calls it performs (empty when the request's trackid
does not match). -/
def SetPosition (currentTid : Nat) (trackid : String) (position : Int) :
    List Int :=
  if trackid ≠ get_current_trackid currentTid then []
  else [Int.fdiv position 1000]

/-! ## track_changed (`BasePlayer.track_changed`, lines 709-715) -/

/-- The trackid-related state of a session: the `_current_trackid` counter
(initialised to 0 at line 263) together with the list of trackid values
announced so far through `Metadata` (via `_make_metadata`, line 458). -/
structure TrackState where
  current_trackid : Nat
  announced : List Nat
  deriving Repr, DecidableEq

/-- Session trackid state right after `BasePlayer.__init__` (line 263). -/
def trackInit : TrackState := { current_trackid := 0, announced := [] }

/-- `BasePlayer.track_changed` (lines 709-715), restricted to its effect on
the trackid: increments `_current_trackid` and announces the new value inside
the republished Metadata (`_make_metadata` stamps `_get_current_trackid()`). -/
def track_changed (st : TrackState) : TrackState :=
  { current_trackid := st.current_trackid + 1,
    announced := st.announced ++ [st.current_trackid + 1] }

/-- The trackid state after `n` consecutive `track_changed` notifications. -/
def iterTrack : Nat → TrackState
  | 0 => trackInit
  | n + 1 => track_changed (iterTrack n)

/-! ## Volume setter (`BasePlayer.Volume` dbus_setter, lines 626-632) -/

/-- The `Volume` dbus setter (lines 626-632): the value it forwards to the
backend's `set_volume`. The D-Bus double is embedded as a rational; the
clamping logic only compares and copies the value, so no rounding is
involved. -/
def Volume_dbus_setter (volume : ℚ) : ℚ :=
  let volume := if volume < 0 then 0 else volume
  let volume := if volume > 1 then 1 else volume
  volume

/-! ## Registry and session lifecycle
(`BasePlayerProxy.ConnectPlayer` lines 111-126, `_player_lost_cb` lines
133-136, `BasePlayer.disconnect` lines 278-283, `set_disconnect_cb` lines
267-268.) -/

/-- The lifecycle-relevant state of one `BasePlayer` session object:
its `_name`, its `_connected` flag (line 258), and whether
`set_disconnect_cb(self._player_lost_cb)` has been called on it (line 121;
`_disconnect_cb` is `None`, hence not callable, until then). -/
structure Session where
  sname : String
  connected : Bool
  cbSet : Bool
  deriving Repr, DecidableEq

/-- The combined proxy/session state. `sessions` lists every `BasePlayer`
object ever created, indexed by creation order (a session id). `reg` is the
`_connected_players` dict: `none` means the key is absent, `some none` a key
present with Python value `None` (left behind by `setdefault`), and
`some (some sid)` a key bound to session `sid`. `lost` records each
`PlayerLost` signal together with the session that triggered it,
`removedFromConn` each `remove_from_connection()` call, and `cbCalls` each
invocation of a registered `_disconnect_cb`. -/
structure SysState where
  sessions : List Session
  reg : String → Option (Option Nat)
  lost : List (String × Nat)
  removedFromConn : List Nat
  cbCalls : List Nat

/-- Possible outcomes of the abstract backend driver call
`self.do_connect_player(player_name)` (line 115): it raises a `TypeError`
carrying a message, returns `None`, or returns a fresh session object whose
`connected` property is as given. -/
inductive DriverOutcome where
  | raises (msg : String)
  | retNone
  | retSession (conn : Bool)
  deriving Repr, DecidableEq

/-- What `ConnectPlayer` produces: the object path of a session (identified
here by its session id), the wrapped registry-level error of lines 116-119
(preserving the original cause), or the `ConnectPlayerError` of line 126. -/
inductive ConnectResult where
  | ok (sid : Nat)
  | errWrapped (cause : String)
  | errConnect (name : String)
  deriving Repr, DecidableEq

/-- Result record for `ConnectPlayer`: the outcome, the successor state, and
whether `do_connect_player` was invoked during the call. -/
structure ConnectOut where
  res : ConnectResult
  state : SysState
  driverCalled : Bool

/-- Whether `_connected_players[name]` currently holds a truthy value (a
session object; `None` and a missing key are falsy). -/
def regTruthy (s : SysState) (name : String) : Bool :=
  match s.reg name with
  | some (some _) => true
  | _ => false

/-- `BasePlayerProxy.ConnectPlayer` (lines 111-126). Line 112
`self._connected_players.setdefault(player_name, None)` first inserts `None`
when the key is absent, then its truthy test decides between returning the
existing session and calling `do_connect_player`; on success the entry is
overwritten with the new session (line 122) after its disconnect callback is
set (line 121), on failure the `None` entry remains. -/
def connectPlayer (name : String) (out : DriverOutcome) (s : SysState) :
    ConnectOut :=
  let reg0 : String → Option (Option Nat) :=
    match s.reg name with
    | some _ => s.reg
    | none => fun n => if n = name then some none else s.reg n
  match s.reg name with
  | some (some sid) =>
      { res := .ok sid, state := { s with reg := reg0 }, driverCalled := false }
  | _ =>
      match out with
      | .raises msg =>
          { res := .errWrapped msg, state := { s with reg := reg0 },
            driverCalled := true }
      | .retNone =>
          { res := .errConnect name, state := { s with reg := reg0 },
            driverCalled := true }
      | .retSession conn =>
          if conn then
            let sid := s.sessions.length
            { res := .ok sid,
              state := { s with
                sessions := s.sessions ++
                  [{ sname := name, connected := true, cbSet := true }],
                reg := fun n => if n = name then some (some sid) else reg0 n },
              driverCalled := true }
          else
            { res := .errConnect name,
              state := { s with
                sessions := s.sessions ++
                  [{ sname := name, connected := false, cbSet := false }],
                reg := reg0 },
              driverCalled := true }

/-- `BasePlayer.disconnect` (lines 278-283) for session `sid`, including the
effect of the registered callback `BasePlayerProxy._player_lost_cb` (lines
133-136): when the session is still connected, clear the flag, unpublish via
`remove_from_connection()`, and, when a callback is registered, invoke it;
the callback deletes the dict entry for `player.name` and emits `PlayerLost`
only when the key is present (`if player.name in self._connected_players`,
which is a key-presence test that also accepts a `None` value). -/
def disconnectSession (sid : Nat) (s : SysState) : SysState :=
  match s.sessions[sid]? with
  | none => s
  | some sess =>
      if sess.connected then
        let s1 := { s with
          sessions := s.sessions.set sid { sess with connected := false },
          removedFromConn := s.removedFromConn ++ [sid] }
        if sess.cbSet then
          let s2 := { s1 with cbCalls := s1.cbCalls ++ [sid] }
          match s.reg sess.sname with
          | some _ =>
              { s2 with
                reg := fun n => if n = sess.sname then none else s.reg n,
                lost := s2.lost ++ [(sess.sname, sid)] }
          | none => s2
        else s1
      else s

/-- The state of a `BasePlayerProxy` right after `__init__` (line 80):
no sessions, an empty `_connected_players` dict, no events. -/
def initState : SysState :=
  { sessions := [], reg := fun _ => none, lost := [],
    removedFromConn := [], cbCalls := [] }

/-- One externally triggered operation: a `ConnectPlayer` bus call (with the
driver behaving as `out` says) or a `disconnect()` on session `sid`. -/
inductive Step where
  | connect (name : String) (out : DriverOutcome)
  | disc (sid : Nat)
  deriving Repr, DecidableEq

/-- Apply one operation to the system state. -/
def applyStep (st : Step) (s : SysState) : SysState :=
  match st with
  | .connect name out => (connectPlayer name out s).state
  | .disc sid => disconnectSession sid s

/-- The state reached from a fresh proxy by a sequence of operations. -/
def runSteps (steps : List Step) : SysState :=
  steps.foldl (fun s st => applyStep st s) initState

/-- The registry invariant of the spec: a name maps (truthily) to a session
only while that session is connected (and it is that session's own name and
its callback is wired); conversely a connected, callback-wired session is
registered under its name; no session ever triggers two `PlayerLost`
events; and every `PlayerLost` event refers to a session that is now
disconnected. -/
def Inv (s : SysState) : Prop :=
  (∀ name sid, s.reg name = some (some sid) →
      ∃ sess, s.sessions[sid]? = some sess ∧ sess.connected = true ∧
        sess.cbSet = true ∧ sess.sname = name) ∧
  (∀ sid sess, s.sessions[sid]? = some sess → sess.connected = true →
      sess.cbSet = true → s.reg sess.sname = some (some sid)) ∧
  s.lost.Pairwise (fun a b => a.2 ≠ b.2) ∧
  (∀ p ∈ s.lost, ∃ sess, s.sessions[p.2]? = some sess ∧ sess.connected = false)

/-! ## Position caching and the Timer
(`BasePlayer._setup_timer_status` lines 417-424, `_setup_timer` lines
426-429, `_get_cached_position` lines 431-439, `_get_cached_status` lines
446-449, `Position` property lines 634-637.) -/

/-- Run state of a Timer: running, paused or stopped. -/
inductive TimerMode where
  | running
  | paused
  | stopped
  deriving Repr, DecidableEq

/-- Modelled from the spec: the `Timer` class of the `timer` module, which
is not among the sources. Per spec §4.1 it keeps a run state driven by
`play()`/`pause()`/`stop()` and a `time` value in integer milliseconds that
can be read or reset; wall-clock extrapolation is abstracted away, `time`
holding the last synchronized base value. -/
structure Timer where
  mode : TimerMode
  time : Int
  deriving Repr, DecidableEq

/-- Modelled from the spec: a fresh `timer.Timer()`, stopped at 0. -/
def Timer.new : Timer := { mode := .stopped, time := 0 }

/-- Modelled from the spec: `Timer.play()` sets the run state to running. -/
def Timer.play (t : Timer) : Timer := { t with mode := .running }

/-- Modelled from the spec: `Timer.pause()` freezes `time`, state paused. -/
def Timer.pause (t : Timer) : Timer := { t with mode := .paused }

/-- Modelled from the spec: `Timer.stop()` freezes `time`, state stopped. -/
def Timer.stop (t : Timer) : Timer := { t with mode := .stopped }

/-- The position-relevant state of a `BasePlayer`: the `_timer` slot
(line 259, `None` until first use) and the `_status` cache (line 260). -/
structure PosState where
  timer : Option Timer
  status : Option Nat
  deriving Repr, DecidableEq

/-- `BasePlayer._get_cached_status` (lines 446-449): populate the status
cache from one `get_status()` backend query (whose answer is the parameter
`backendStatus`) if empty; return the cached value and the new state. -/
def get_cached_status (backendStatus : Nat) (st : PosState) :
    Nat × PosState :=
  match st.status with
  | some v => (v, st)
  | none => (backendStatus, { st with status := some backendStatus })

/-- `BasePlayer._setup_timer_status` (lines 417-424): when a timer exists,
apply `pause`/`play`/`stop` to it according to the `status_map` dict
(PAUSED → pause, PLAYING → play, STOPPED → stop; only the three STATUS
codes ever reach this map). -/
def setup_timer_status (status : Nat) (st : PosState) : PosState :=
  match st.timer with
  | none => st
  | some t =>
      { st with timer := some (
          if status = STATUS.PAUSED then t.pause
          else if status = STATUS.PLAYING then t.play
          else t.stop) }

/-- `BasePlayer._setup_timer` (lines 426-429): when no timer exists yet,
create one and put it in the run state of the cached playback status. -/
def setup_timer (backendStatus : Nat) (st : PosState) : PosState :=
  match st.timer with
  | some _ => st
  | none =>
      let st1 := { st with timer := some Timer.new }
      let cs := get_cached_status backendStatus st1
      setup_timer_status cs.1 cs.2

/-- The `time` of the session's timer (only read where the timer exists). -/
def PosState.timerTime (st : PosState) : Int :=
  match st.timer with
  | some t => t.time
  | none => 0

/-- Result of a position read: the returned value, the successor state, and
how many `get_position()` backend queries were made. -/
structure PosOut where
  value : Int
  state : PosState
  posQueries : Nat
  deriving Repr, DecidableEq

/-- `BasePlayer._get_cached_position` (lines 431-439), also the body of the
`Position` property (lines 634-637): if no timer exists, set one up and —
only when the cached status is not STOPPED — seed it from one
`get_position()` backend query (whose answer is the parameter
`backendPos`); then return the timer's time. -/
def get_cached_position (backendStatus : Nat) (backendPos : Int)
    (st : PosState) : PosOut :=
  match st.timer with
  | some t => { value := t.time, state := st, posQueries := 0 }
  | none =>
      let st1 := setup_timer backendStatus st
      let cs := get_cached_status backendStatus st1
      if cs.1 ≠ STATUS.STOPPED then
        let st3 := { cs.2 with
          timer := cs.2.timer.map (fun t => { t with time := backendPos }) }
        { value := st3.timerTime, state := st3, posQueries := 1 }
      else
        { value := cs.2.timerTime, state := cs.2, posQueries := 0 }

/-! ## Theorems -/

/-- C1: the claim says `caps_changed` with a populated cache emits a change
for exactly the capabilities whose membership differs between the old and
new set; with old = {PLAY, SEEK} and new = {PLAY, NEXT} that would be
CanGoNext (true) and CanSeek (false) only. The code instead emits exactly
the capabilities present in BOTH sets — here only CanPlay (true) — because
line 752 `cap in orig_caps != cap in self._caps` is a chained comparison.
This theorem evaluates both the code and the documented behaviour at the
failing input and shows they disagree. -/
theorem caps_changed_chained_comparison_bug :
    caps_changed (some [CAPS.PLAY, CAPS.SEEK]) [CAPS.PLAY, CAPS.NEXT]
      = [("CanPlay", true)] ∧
    caps_changed_spec [CAPS.PLAY, CAPS.SEEK] [CAPS.PLAY, CAPS.NEXT]
      = [("CanGoNext", true), ("CanSeek", false)] ∧
    caps_changed (some [CAPS.PLAY, CAPS.SEEK]) [CAPS.PLAY, CAPS.NEXT]
      ≠ caps_changed_spec [CAPS.PLAY, CAPS.SEEK] [CAPS.PLAY, CAPS.NEXT] := by
  decide

/-- C2: `Seek` issues exactly one backend `set_position` call with argument
`max 0 (p + offset // 1000)` (floor division, lower clamp only, no upper
bound); in particular at position 5000 ms with offset -7000000 µs the
position sent is 0. -/
theorem Seek_single_call_floor_clamp :
    (∀ p offset : Int, Seek p offset = [max 0 (p + Int.fdiv offset 1000)]) ∧
    Seek 5000 (-7000000) = [0] := by
  refine ⟨fun p offset => ?_, by decide⟩
  simp only [Seek]
  congr 1
  split <;> omega

/-- C3: `SetPosition` makes no backend call when the request's trackid
differs from the session's current announced trackid, and exactly one
backend `set_position` call with argument `position // 1000` when it
matches. -/
theorem SetPosition_trackid_guard (tid : Nat) (trackid : String) (pos : Int) :
    (trackid ≠ get_current_trackid tid → SetPosition tid trackid pos = []) ∧
    (trackid = get_current_trackid tid →
      SetPosition tid trackid pos = [Int.fdiv pos 1000]) := by
  constructor
  · intro h
    simp [SetPosition, h]
  · intro h
    simp [SetPosition, h]

/-- C3 witness: concrete evaluations of the guard, at trackid counter 0
(announced trackid "/0"): a mismatched request is dropped, a matching
request with position 7500 µs yields one backend call at 7 ms. -/
theorem SetPosition_trackid_guard_witness :
    SetPosition 0 "/1" 500 = [] ∧ SetPosition 0 "/0" 7500 = [7] := by
  constructor
  · exact (SetPosition_trackid_guard 0 "/1" 500).1 (by decide)
  · have h := (SetPosition_trackid_guard 0 "/0" 7500).2 (by decide)
    rw [h]
    decide

/-- C4: when `ConnectPlayer(name)` succeeds and actually invoked the driver,
a second `ConnectPlayer(name)` (whatever the driver would do) returns the
same session handle, does not invoke the driver — so the driver ran exactly
once across the two calls — and leaves the state unchanged. -/
theorem ConnectPlayer_idempotent (name : String) (out out2 : DriverOutcome)
    (s : SysState) (sid : Nat)
    (h1 : (connectPlayer name out s).res = .ok sid)
    (h2 : (connectPlayer name out s).driverCalled = true) :
    (connectPlayer name out2 (connectPlayer name out s).state).res = .ok sid ∧
    (connectPlayer name out2 (connectPlayer name out s).state).driverCalled
      = false ∧
    (connectPlayer name out2 (connectPlayer name out s).state).state
      = (connectPlayer name out s).state := by
  rcases hreg : s.reg name with _ | (_ | sid0)
  · rcases out with msg | _ | conn
    · simp [connectPlayer, hreg] at h1
    · simp [connectPlayer, hreg] at h1
    · rcases conn with _ | _
      · simp [connectPlayer, hreg] at h1
      · simp [connectPlayer, hreg] at h1 ⊢
        exact h1
  · rcases out with msg | _ | conn
    · simp [connectPlayer, hreg] at h1
    · simp [connectPlayer, hreg] at h1
    · rcases conn with _ | _
      · simp [connectPlayer, hreg] at h1
      · simp [connectPlayer, hreg] at h1 ⊢
        exact h1
  · simp [connectPlayer, hreg] at h2

/-- C4 witness: from a fresh proxy, connecting "foo" twice returns session 0
both times and the second call does not invoke the driver. -/
theorem ConnectPlayer_idempotent_witness :
    (connectPlayer "foo" (DriverOutcome.retSession true)
        ((connectPlayer "foo" (DriverOutcome.retSession true) initState).state)).res
      = ConnectResult.ok 0 ∧
    (connectPlayer "foo" (DriverOutcome.retSession true)
        ((connectPlayer "foo" (DriverOutcome.retSession true) initState).state)).driverCalled
      = false := by
  have h := ConnectPlayer_idempotent "foo" (DriverOutcome.retSession true)
    (DriverOutcome.retSession true) initState 0 (by decide) (by decide)
  exact ⟨h.1, h.2.1⟩

/-- C5: with no live session for `name`, a driver that raises yields the
wrapping registry-level error that preserves the original cause, and a
driver that returns `None` or a non-connected session yields the distinct
`ConnectPlayerError`; in all three failure cases no live session is
registered under `name` afterwards. -/
theorem ConnectPlayer_failure_modes (name msg : String) (s : SysState)
    (h : regTruthy s name = false) :
    ((connectPlayer name (.raises msg) s).res = .errWrapped msg ∧
      regTruthy (connectPlayer name (.raises msg) s).state name = false) ∧
    ((connectPlayer name .retNone s).res = .errConnect name ∧
      regTruthy (connectPlayer name .retNone s).state name = false) ∧
    ((connectPlayer name (.retSession false) s).res = .errConnect name ∧
      regTruthy (connectPlayer name (.retSession false) s).state name
        = false) := by
  rcases hreg : s.reg name with _ | (_ | sid0)
  · simp [connectPlayer, regTruthy, hreg]
  · simp [connectPlayer, regTruthy, hreg]
  · simp [regTruthy, hreg] at h

/-- C5 witness: concrete failure outcomes from a fresh proxy. -/
theorem ConnectPlayer_failure_modes_witness :
    (connectPlayer "foo" (DriverOutcome.raises "boom") initState).res
      = ConnectResult.errWrapped "boom" ∧
    regTruthy (connectPlayer "foo" (DriverOutcome.raises "boom") initState).state
      "foo" = false ∧
    (connectPlayer "foo" DriverOutcome.retNone initState).res
      = ConnectResult.errConnect "foo" ∧
    (connectPlayer "foo" (DriverOutcome.retSession false) initState).res
      = ConnectResult.errConnect "foo" := by
  have h := ConnectPlayer_failure_modes "foo" "boom" initState (by decide)
  exact ⟨h.1.1, h.1.2, h.2.1.1, h.2.2.1⟩

/-- C7: the first `disconnect()` on a connected session with a registered
callback clears the connected flag, performs `remove_from_connection()`
once, invokes the callback once, and a second `disconnect()` on the
resulting state is a no-op. -/
theorem disconnect_idempotent (s : SysState) (sid : Nat) (sess : Session)
    (h1 : s.sessions[sid]? = some sess)
    (h2 : sess.connected = true)
    (h3 : sess.cbSet = true) :
    ((disconnectSession sid s).sessions[sid]?
        = some { sess with connected := false }) ∧
    (disconnectSession sid s).removedFromConn = s.removedFromConn ++ [sid] ∧
    (disconnectSession sid s).cbCalls = s.cbCalls ++ [sid] ∧
    disconnectSession sid (disconnectSession sid s)
      = disconnectSession sid s := by
  obtain ⟨nm, co, cb⟩ := sess
  simp only at h2 h3
  subst h2
  subst h3
  have hlt : sid < s.sessions.length := by
    rcases List.getElem?_eq_some.1 h1 with ⟨h, _⟩
    exact h
  have hset := List.getElem?_set_eq_of_lt
    (⟨nm, false, true⟩ : Session) (l := s.sessions) hlt
  rcases hreg : s.reg nm with _ | v
  · simp [disconnectSession, h1, hreg, hset]
  · simp [disconnectSession, h1, hreg, hset]

/-- C7 witness: disconnecting the session created by a successful connect
unpublishes it and invokes its callback exactly once. -/
theorem disconnect_idempotent_witness :
    (disconnectSession 0
        (connectPlayer "foo" (DriverOutcome.retSession true) initState).state).removedFromConn
      = [0] ∧
    (disconnectSession 0
        (connectPlayer "foo" (DriverOutcome.retSession true) initState).state).cbCalls
      = [0] := by
  have h := disconnect_idempotent
    (connectPlayer "foo" (DriverOutcome.retSession true) initState).state 0
    ⟨"foo", true, true⟩ (by decide) rfl rfl
  constructor
  · rw [h.2.1]
    decide
  · rw [h.2.2.1]
    decide

/-- A fresh proxy satisfies the registry invariant. -/
theorem Inv_initState : Inv initState := by
  refine ⟨?_, ?_, ?_, ?_⟩ <;> simp [initState, Inv]

/-- Leaving a `None` entry in `_connected_players` (the `setdefault` residue
of a failed connect) preserves the registry invariant. -/
theorem Inv_reg_insert_none (s : SysState) (name : String)
    (h : Inv s) (hnt : regTruthy s name = false) :
    Inv { s with reg := fun n => if n = name then some none else s.reg n } := by
  obtain ⟨ha, hb, hc, hd⟩ := h
  refine ⟨?_, ?_, hc, hd⟩
  · intro n sid hn
    simp only at hn
    by_cases hne : n = name
    · rw [if_pos hne] at hn
      simp at hn
    · rw [if_neg hne] at hn
      exact ha n sid hn
  · intro sid sess hs hco hcb
    have hr := hb sid sess hs hco hcb
    simp only
    by_cases hne : sess.sname = name
    · rw [hne] at hr
      simp [regTruthy, hr] at hnt
    · rw [if_neg hne]
      exact hr

/-- Recording a session object that was created but never connected (the
driver returned it with `connected` false; its callback is never set and it
is never registered) preserves the registry invariant. -/
theorem Inv_append_dead (s : SysState) (nm : String) (h : Inv s) :
    Inv { s with sessions := s.sessions ++ [⟨nm, false, false⟩] } := by
  obtain ⟨ha, hb, hc, hd⟩ := h
  refine ⟨?_, ?_, hc, ?_⟩
  · intro n sid hn
    obtain ⟨sess, hs, hrest⟩ := ha n sid hn
    have hlt := (List.getElem?_eq_some.1 hs).1
    refine ⟨sess, ?_, hrest⟩
    simp only
    rw [List.getElem?_append_left hlt]
    exact hs
  · intro sid sess hs hco hcb
    simp only at hs
    have hlt := (List.getElem?_eq_some.1 hs).1
    rw [List.length_append, List.length_singleton] at hlt
    rcases Nat.lt_or_ge sid s.sessions.length with hl | hg
    · rw [List.getElem?_append_left hl] at hs
      exact hb sid sess hs hco hcb
    · have heq : sid = s.sessions.length := by omega
      subst heq
      rw [List.getElem?_concat_length] at hs
      cases hs
      cases hco
  · intro p hp
    obtain ⟨sess, hs, hconn⟩ := hd p hp
    have hlt := (List.getElem?_eq_some.1 hs).1
    refine ⟨sess, ?_, hconn⟩
    simp only
    rw [List.getElem?_append_left hlt]
    exact hs

/-- A successful connect — a fresh connected session with its callback
wired (line 121), registered under `name` (line 122) — preserves the
registry invariant. `reg0` is the dict as left by `setdefault`; away from
`name` it agrees with the original dict. -/
theorem Inv_connect_success (s : SysState) (name : String)
    (reg0 : String → Option (Option Nat))
    (h : Inv s) (hnt : regTruthy s name = false)
    (h0 : ∀ n, n ≠ name → reg0 n = s.reg n) :
    Inv { s with
      sessions := s.sessions ++ [⟨name, true, true⟩],
      reg := fun n => if n = name then some (some s.sessions.length)
             else reg0 n } := by
  obtain ⟨ha, hb, hc, hd⟩ := h
  refine ⟨?_, ?_, hc, ?_⟩
  · intro n sid hn
    simp only at hn ⊢
    by_cases hne : n = name
    · rw [if_pos hne] at hn
      obtain rfl : s.sessions.length = sid := by simpa using hn
      refine ⟨⟨name, true, true⟩, ?_, rfl, rfl, hne.symm ▸ rfl⟩
      exact List.getElem?_concat_length _ _
    · rw [if_neg hne, h0 n hne] at hn
      obtain ⟨sess, hs, hrest⟩ := ha n sid hn
      have hlt := (List.getElem?_eq_some.1 hs).1
      refine ⟨sess, ?_, hrest⟩
      rw [List.getElem?_append_left hlt]
      exact hs
  · intro sid sess hs hco hcb
    simp only at hs ⊢
    have hlt := (List.getElem?_eq_some.1 hs).1
    rw [List.length_append, List.length_singleton] at hlt
    rcases Nat.lt_or_ge sid s.sessions.length with hl | hg
    · rw [List.getElem?_append_left hl] at hs
      have hr := hb sid sess hs hco hcb
      by_cases hne : sess.sname = name
      · rw [hne] at hr
        simp [regTruthy, hr] at hnt
      · rw [if_neg hne, h0 _ hne]
        exact hr
    · have heq : sid = s.sessions.length := by omega
      subst heq
      rw [List.getElem?_concat_length] at hs
      cases hs
      simp
  · intro p hp
    obtain ⟨sess, hs, hconn⟩ := hd p hp
    have hlt := (List.getElem?_eq_some.1 hs).1
    refine ⟨sess, ?_, hconn⟩
    simp only
    rw [List.getElem?_append_left hlt]
    exact hs

/-- `ConnectPlayer` preserves the registry invariant, whatever the driver
does. -/
theorem Inv_connect (name : String) (out : DriverOutcome) (s : SysState)
    (h : Inv s) : Inv (connectPlayer name out s).state := by
  rcases hreg : s.reg name with _ | (_ | sid0)
  · have hnt : regTruthy s name = false := by simp [regTruthy, hreg]
    rcases out with msg | _ | conn
    · simp only [connectPlayer, hreg]
      exact Inv_reg_insert_none s name h hnt
    · simp only [connectPlayer, hreg]
      exact Inv_reg_insert_none s name h hnt
    · rcases conn with _ | _
      · simp only [connectPlayer, hreg, if_neg]
        exact Inv_append_dead _ name (Inv_reg_insert_none s name h hnt)
      · simp only [connectPlayer, hreg]
        exact Inv_connect_success s name _ h hnt
          (fun n hne => by simp [if_neg hne])
  · have hnt : regTruthy s name = false := by simp [regTruthy, hreg]
    rcases out with msg | _ | conn
    · simp only [connectPlayer, hreg]
      exact h
    · simp only [connectPlayer, hreg]
      exact h
    · rcases conn with _ | _
      · simp only [connectPlayer, hreg]
        exact Inv_append_dead s name h
      · simp only [connectPlayer, hreg]
        exact Inv_connect_success s name _ h hnt (fun n hne => rfl)
  · simp only [connectPlayer, hreg]
    exact h

/-- `disconnect()` (with its `_player_lost_cb` effect) preserves the
registry invariant. -/
theorem Inv_disc (sid : Nat) (s : SysState) (h : Inv s) :
    Inv (disconnectSession sid s) := by
  obtain ⟨ha, hb, hc, hd⟩ := h
  rcases hsess : s.sessions[sid]? with _ | sess
  · simp only [disconnectSession, hsess]
    exact ⟨ha, hb, hc, hd⟩
  · have hlt := (List.getElem?_eq_some.1 hsess).1
    rcases hco : sess.connected with _ | _
    · simp only [disconnectSession, hsess, hco]
      exact ⟨ha, hb, hc, hd⟩
    · rcases hcb : sess.cbSet with _ | _
      · simp only [disconnectSession, hsess, hco, hcb, if_true, if_false,
          Bool.false_eq_true]
        refine ⟨?_, ?_, hc, ?_⟩
        · intro n sid' hn
          obtain ⟨sess', hs', hco', hcb', hn'⟩ := ha n sid' hn
          refine ⟨sess', ?_, hco', hcb', hn'⟩
          simp only
          by_cases hne : sid = sid'
          · subst hne
            rw [hsess] at hs'
            cases hs'
            rw [hcb'] at hcb
            cases hcb
          · rw [List.getElem?_set_ne hne]
            exact hs'
        · intro sid' sess' hs' hco' hcb'
          simp only at hs'
          by_cases hne : sid = sid'
          · subst hne
            rw [List.getElem?_set_eq_of_lt _ hlt] at hs'
            cases hs'
            cases hco'
          · rw [List.getElem?_set_ne hne] at hs'
            exact hb sid' sess' hs' hco' hcb'
        · intro p hp
          obtain ⟨sess', hs', hconn'⟩ := hd p hp
          simp only
          by_cases hne : sid = p.2
          · subst hne
            exact ⟨_, List.getElem?_set_eq_of_lt _ hlt, rfl⟩
          · rw [List.getElem?_set_ne hne]
            exact ⟨sess', hs', hconn'⟩
      · have hr := hb sid sess hsess hco hcb
        rcases hreg : s.reg sess.sname with _ | v
        · rw [hreg] at hr
          cases hr
        · rw [hreg] at hr
          obtain rfl : v = some sid := by simpa using hr
          simp only [disconnectSession, hsess, hco, hcb, hreg, if_true]
          refine ⟨?_, ?_, ?_, ?_⟩
          · intro n sid' hn
            simp only at hn ⊢
            by_cases hne : n = sess.sname
            · rw [if_pos hne] at hn
              cases hn
            · rw [if_neg hne] at hn
              obtain ⟨sess', hs', hco', hcb', hn'⟩ := ha n sid' hn
              have hne' : sid ≠ sid' := by
                intro hcontra
                subst hcontra
                rw [hsess] at hs'
                cases hs'
                exact hne hn'.symm
              refine ⟨sess', ?_, hco', hcb', hn'⟩
              rw [List.getElem?_set_ne hne']
              exact hs'
          · intro sid' sess' hs' hco' hcb'
            simp only at hs' ⊢
            by_cases hne : sid = sid'
            · subst hne
              rw [List.getElem?_set_eq_of_lt _ hlt] at hs'
              cases hs'
              cases hco'
            · rw [List.getElem?_set_ne hne] at hs'
              have hr' := hb sid' sess' hs' hco' hcb'
              by_cases hnm : sess'.sname = sess.sname
              · rw [hnm] at hr'
                rw [hreg] at hr'
                obtain heq : sid = sid' := by simpa using hr'
                exact absurd heq hne
              · rw [if_neg hnm]
                exact hr'
          · simp only
            rw [List.pairwise_append]
            refine ⟨hc, by simp, ?_⟩
            intro a ha' b hb'
            simp only [List.mem_singleton] at hb'
            subst hb'
            obtain ⟨sess', hs', hconn'⟩ := hd a ha'
            intro hcontra
            rw [hcontra] at hs'
            rw [hsess] at hs'
            cases hs'
            rw [hconn'] at hco
            cases hco
          · intro p hp
            simp only [List.mem_append, List.mem_singleton] at hp
            rcases hp with hp | hp
            · obtain ⟨sess', hs', hconn'⟩ := hd p hp
              simp only
              by_cases hne : sid = p.2
              · subst hne
                exact ⟨_, List.getElem?_set_eq_of_lt _ hlt, rfl⟩
              · rw [List.getElem?_set_ne hne]
                exact ⟨sess', hs', hconn'⟩
            · subst hp
              simp only
              exact ⟨_, List.getElem?_set_eq_of_lt _ hlt, rfl⟩

/-- The registry invariant holds along any run of operations started from
any invariant state. -/
theorem Inv_foldl (steps : List Step) (s : SysState) (h : Inv s) :
    Inv (steps.foldl (fun s st => applyStep st s) s) := by
  induction steps generalizing s with
  | nil => exact h
  | cons st rest ih =>
      refine ih _ ?_
      rcases st with ⟨name, out⟩ | sid
      · exact Inv_connect name out s h
      · exact Inv_disc sid s h

/-- C8: in every reachable state the registry invariant `Inv` holds — in
particular a name maps to a session only while that session's connected
flag is true, and no session ever triggers two `PlayerLost` events —
and when a registered, connected session disconnects, its map entry is
removed and exactly one `PlayerLost` event is appended for it, a session id
that never occurred in an earlier event. -/
theorem registry_session_invariant (steps : List Step) :
    Inv (runSteps steps) ∧
    ∀ sid sess, (runSteps steps).sessions[sid]? = some sess →
      sess.connected = true → sess.cbSet = true →
      (disconnectSession sid (runSteps steps)).reg sess.sname = none ∧
      (disconnectSession sid (runSteps steps)).lost
        = (runSteps steps).lost ++ [(sess.sname, sid)] ∧
      (∀ p ∈ (runSteps steps).lost, p.2 ≠ sid) := by
  have hInv : Inv (runSteps steps) := Inv_foldl steps initState Inv_initState
  refine ⟨hInv, ?_⟩
  intro sid sess hsess hco hcb
  obtain ⟨ha, hb, hc, hd⟩ := hInv
  have hr := hb sid sess hsess hco hcb
  have hnot : ∀ p ∈ (runSteps steps).lost, p.2 ≠ sid := by
    intro p hp hcontra
    obtain ⟨sess', hs', hconn'⟩ := hd p hp
    rw [hcontra, hsess] at hs'
    cases hs'
    rw [hconn'] at hco
    cases hco
  refine ⟨?_, ?_, hnot⟩
  · simp [disconnectSession, hsess, hco, hcb, hr]
  · simp [disconnectSession, hsess, hco, hcb, hr]

/-- C8 witness: connect "foo", then disconnect session 0: the map entry is
gone and exactly one `PlayerLost` event was emitted. -/
theorem registry_session_invariant_witness :
    (disconnectSession 0
        (runSteps [Step.connect "foo" (DriverOutcome.retSession true)])).reg "foo"
      = none ∧
    (disconnectSession 0
        (runSteps [Step.connect "foo" (DriverOutcome.retSession true)])).lost
      = [("foo", 0)] := by
  have h := (registry_session_invariant
    [Step.connect "foo" (DriverOutcome.retSession true)]).2 0
    ⟨"foo", true, true⟩ (by decide) rfl rfl
  refine ⟨h.1, ?_⟩
  rw [h.2.1]
  decide

/-- C6: each `track_changed` increments the trackid counter by exactly 1;
after n notifications the counter is n and the announced trackids are
1, 2, ..., n — pairwise strictly increasing, hence no value is ever
announced twice or reused. -/
theorem track_changed_trackid_monotone :
    (∀ st : TrackState,
        (track_changed st).current_trackid = st.current_trackid + 1) ∧
    (∀ n : Nat, (iterTrack n).current_trackid = n) ∧
    (∀ n : Nat, (iterTrack n).announced = (List.range n).map (· + 1)) ∧
    (∀ n : Nat, (iterTrack n).announced.Pairwise (· < ·)) := by
  have hcount : ∀ n : Nat, (iterTrack n).current_trackid = n := by
    intro n
    induction n with
    | zero => rfl
    | succ n ih => simp [iterTrack, track_changed, ih]
  have hann : ∀ n : Nat, (iterTrack n).announced = (List.range n).map (· + 1) := by
    intro n
    induction n with
    | zero => rfl
    | succ n ih =>
        simp [iterTrack, track_changed, ih, hcount n, List.range_succ]
  refine ⟨fun st => rfl, hcount, hann, fun n => ?_⟩
  rw [hann n]
  exact (List.pairwise_lt_range n).map _ (fun a b h => by omega)

/-- C9 counterexample: the claim says the first position read always seeds
the Timer from exactly one backend `get_position` query; but when the cached
playback status is STOPPED the guard on line 437 skips the query — here a
first read with backend status STOPPED issues zero `get_position` calls. -/
theorem position_first_read_stopped_no_query :
    (get_cached_position STATUS.STOPPED 1234
        { timer := none, status := none }).posQueries = 0 ∧
    ¬ (get_cached_position STATUS.STOPPED 1234
        { timer := none, status := none }).posQueries = 1 := by
  decide

/-- C9 (amended): the first position read creates the Timer and puts it in
the run state matching the cached playback status; it seeds the Timer from
exactly one backend `get_position` query when that status is not STOPPED,
and from none when it is STOPPED (the timer then stays at its initial 0);
every later read returns the Timer's value with zero backend position
queries and no state change. -/
theorem position_timer_caching (st : PosState) (bs : Nat) (bp : Int)
    (hst : st.timer = none) :
    ((get_cached_status bs st).1 ≠ STATUS.STOPPED →
      (get_cached_position bs bp st).posQueries = 1 ∧
      (get_cached_position bs bp st).value = bp ∧
      (get_cached_position bs bp st).state.timer = some
        { mode := if (get_cached_status bs st).1 = STATUS.PAUSED then TimerMode.paused
                  else if (get_cached_status bs st).1 = STATUS.PLAYING then TimerMode.running
                  else TimerMode.stopped,
          time := bp }) ∧
    ((get_cached_status bs st).1 = STATUS.STOPPED →
      (get_cached_position bs bp st).posQueries = 0 ∧
      (get_cached_position bs bp st).state.timer = some
        { mode := TimerMode.stopped, time := 0 }) ∧
    (∀ t : Timer, ∀ st2 : PosState, st2.timer = some t →
      (get_cached_position bs bp st2).posQueries = 0 ∧
      (get_cached_position bs bp st2).value = t.time ∧
      (get_cached_position bs bp st2).state = st2) := by
  obtain ⟨ti, status⟩ := st
  simp only at hst
  subst hst
  refine ⟨?_, ?_, ?_⟩
  · intro hne
    simp only [get_cached_status, STATUS.PAUSED, STATUS.PLAYING,
      STATUS.STOPPED] at hne ⊢
    rcases status with _ | v
    · by_cases h1 : bs = 1
      · simp [get_cached_position, setup_timer, get_cached_status,
          setup_timer_status, PosState.timerTime, Timer.new, Timer.pause,
          Timer.play, Timer.stop, STATUS.PAUSED, STATUS.PLAYING,
          STATUS.STOPPED, hne, h1]
      · by_cases h2 : bs = 0
        · simp [get_cached_position, setup_timer, get_cached_status,
            setup_timer_status, PosState.timerTime, Timer.new, Timer.pause,
            Timer.play, Timer.stop, STATUS.PAUSED, STATUS.PLAYING,
            STATUS.STOPPED, hne, h1, h2]
        · simp [get_cached_position, setup_timer, get_cached_status,
            setup_timer_status, PosState.timerTime, Timer.new, Timer.pause,
            Timer.play, Timer.stop, STATUS.PAUSED, STATUS.PLAYING,
            STATUS.STOPPED, hne, h1, h2]
    · by_cases h1 : v = 1
      · simp [get_cached_position, setup_timer, get_cached_status,
          setup_timer_status, PosState.timerTime, Timer.new, Timer.pause,
          Timer.play, Timer.stop, STATUS.PAUSED, STATUS.PLAYING,
          STATUS.STOPPED, hne, h1]
      · by_cases h2 : v = 0
        · simp [get_cached_position, setup_timer, get_cached_status,
            setup_timer_status, PosState.timerTime, Timer.new, Timer.pause,
            Timer.play, Timer.stop, STATUS.PAUSED, STATUS.PLAYING,
            STATUS.STOPPED, hne, h1, h2]
        · simp [get_cached_position, setup_timer, get_cached_status,
            setup_timer_status, PosState.timerTime, Timer.new, Timer.pause,
            Timer.play, Timer.stop, STATUS.PAUSED, STATUS.PLAYING,
            STATUS.STOPPED, hne, h1, h2]
  · intro hstop
    rcases status with _ | v <;>
      simp only [get_cached_status, STATUS.PAUSED, STATUS.PLAYING,
        STATUS.STOPPED] at hstop
    · simp [get_cached_position, setup_timer, get_cached_status,
        setup_timer_status, PosState.timerTime, Timer.new, Timer.pause,
        Timer.play, Timer.stop, STATUS.PAUSED, STATUS.PLAYING,
        STATUS.STOPPED, hstop]
    · simp [get_cached_position, setup_timer, get_cached_status,
        setup_timer_status, PosState.timerTime, Timer.new, Timer.pause,
        Timer.play, Timer.stop, STATUS.PAUSED, STATUS.PLAYING,
        STATUS.STOPPED, hstop]
  · intro t st2 hst2
    simp [get_cached_position, hst2]

/-- C9 witness: a first read while the backend reports PLAYING makes one
position query and returns it; a later read with a live timer makes none. -/
theorem position_timer_caching_witness :
    (get_cached_position STATUS.PLAYING 1234
        { timer := none, status := none }).posQueries = 1 ∧
    (get_cached_position STATUS.PLAYING 1234
        { timer := none, status := none }).value = 1234 ∧
    (get_cached_position STATUS.PLAYING 1234
        { timer := some { mode := TimerMode.running, time := 55 },
          status := some STATUS.PLAYING }).posQueries = 0 := by
  have h := position_timer_caching { timer := none, status := none }
    STATUS.PLAYING 1234 rfl
  have h1 := h.1 (by decide)
  have h2 := h.2.2 { mode := TimerMode.running, time := 55 }
    { timer := some { mode := TimerMode.running, time := 55 },
      status := some STATUS.PLAYING } rfl
  exact ⟨h1.1, h1.2.1, h2.1⟩

/-- C10: the value the `Volume` dbus setter forwards to the backend's
`set_volume` always lies in [0, 1]; inputs below 0 are clamped to 0, inputs
above 1 are clamped to 1, and in-range inputs pass through unchanged. -/
theorem Volume_setter_clamps (v : ℚ) :
    (0 ≤ Volume_dbus_setter v ∧ Volume_dbus_setter v ≤ 1) ∧
    (v < 0 → Volume_dbus_setter v = 0) ∧
    (1 < v → Volume_dbus_setter v = 1) ∧
    (0 ≤ v → v ≤ 1 → Volume_dbus_setter v = v) := by
  simp only [Volume_dbus_setter]
  split <;> split <;>
    refine ⟨⟨by linarith, by linarith⟩, fun h1 => ?_, fun h2 => ?_, fun h3 h4 => ?_⟩ <;>
    first | rfl | linarith

/-- C10 witness: concrete clamping values. -/
theorem Volume_setter_clamps_witness :
    Volume_dbus_setter (-1) = 0 ∧ Volume_dbus_setter 2 = 1 ∧
    Volume_dbus_setter (1/2) = 1/2 := by
  refine ⟨(Volume_setter_clamps (-1)).2.1 (by norm_num),
          (Volume_setter_clamps 2).2.2.1 (by norm_num),
          (Volume_setter_clamps (1/2)).2.2.2 (by norm_num) (by norm_num)⟩

end PlayerProxy
